import Mathlib

/-!
Verification of the currency-converter core (repository `currency-converter`).

Shallow embedding of:
- `src/currency_api.rs`: provider-response merging and snapshot production
  (`CurrencyApiClient::fetch_currencies`);
- `src/currency_convert.rs`: the TTL cache (`get_base_currency_info`),
  rate resolution (`get_currency_rate`), and conversion
  (`convert_currency`, `convert_currencies`);
- `src/main.rs`: the per-currency response cache (`get_currency_info`) and the
  plain-text status pipeline (`convert_currency_info_to`).

Modelling conventions:
- `f64` rate values are carried as `ℚ`; the claims settled here move rates
  around or compare presence, they do not depend on binary64 rounding.
- `Instant` timestamps are seconds as `ℕ`; `Instant::elapsed().as_secs()`
  is `now - timestamp` (truncated subtraction, as elapsed time of a
  monotonic clock is never negative).
- `HashMap<String, f64>` is an association list looked up with
  `List.lookup`; a `HashMap` has unique keys, so its (unspecified)
  iteration order is immaterial to every lookup-level statement below.
- The external world (HTTP fetches) enters as an explicit
  `Except FetchError _` argument; an outcome records the resulting cache
  slot, whether an upstream fetch was attempted, and the returned value.
  Under this sequential semantics the second freshness re-check of the
  double-checked-locking pattern coincides with the first check.
-/

/-- The rates mapping `HashMap<String, f64>` of a provider response. -/
abbrev RatesMap := List (String × ℚ)

/-- Failures of the upstream fetches in `currency_api.rs`: the two
`anyhow!` network errors and a serde decode failure. -/
inductive FetchError where
  | fastForexUnavailable : FetchError
  | xeUnavailable : FetchError
  | decodeFailure : String → FetchError
deriving DecidableEq, Repr

/-- `CurrencyApiResponse` of `currency_api.rs`: the decoded
`(code → rate)` mapping of one provider. -/
structure CurrencyApiResponse where
  currency_rates : RatesMap
deriving DecidableEq, Repr

/-- `CurrencyInfo` of `currency_api.rs`: a merged snapshot with its fetch
timestamp. -/
structure CurrencyInfo where
  timestamp : Nat
  currency_rates : RatesMap
deriving DecidableEq, Repr

/-- The merge loop of `fetch_currencies`:
`for (currency, rate) in xe { result.entry(currency).or_insert(rate) }`
starting from the FastForex map — insert-if-absent. -/
def mergeRates (ff xe : RatesMap) : RatesMap :=
  xe.foldl
    (fun result cr => if (result.lookup cr.1).isSome then result else result ++ [cr])
    ff

/-- `CurrencyApiClient::fetch_currencies`: FastForex is fetched first and
its failure propagates with `?`; then the XE fetch result is also
propagated with `?`; on both successes the maps are merged (FastForex
entries first, XE filling gaps) and stamped with the current instant. -/
def fetch_currencies (now : Nat)
    (fastforex_result xe_result : Except FetchError CurrencyApiResponse) :
    Except FetchError CurrencyInfo := do
  let fastforex_info ← fastforex_result
  let xe_info ← xe_result
  pure { timestamp := now,
         currency_rates := mergeRates fastforex_info.currency_rates xe_info.currency_rates }

/-- `MAX_CACHE_TIME_SECS` of `currency_convert.rs`. -/
def MAX_CACHE_TIME_SECS : Nat := 5 * 60

/-- `ONE_USD_RATE` of `currency_convert.rs`. -/
def ONE_USD_RATE : Option ℚ := some 1

/-- Errors surfaced by `convert_currency`: either a propagated fetch
failure or the `anyhow!("Invalid target or source currency")` error. -/
inductive ConvError where
  | fetchFailed : FetchError → ConvError
  | invalidCurrency : ConvError
deriving DecidableEq, Repr

/-- `CurrencyConvertResult` of `currency_convert.rs`. -/
structure CurrencyConvertResult where
  base_currency : String
  target_currency : String
  conversion_rate : ℚ
deriving DecidableEq, Repr

/-- Outcome of one `get_base_currency_info` call: the cache slot
afterwards, whether `api_client.fetch_currencies` was invoked, and the
returned value. -/
structure FetchOutcome where
  state : Option CurrencyInfo
  fetchInvoked : Bool
  result : Except FetchError CurrencyInfo
deriving Repr

/-- `CurrencyConverter::get_base_currency_info`: return the cached
snapshot if present and aged at most `MAX_CACHE_TIME_SECS`; otherwise
invoke the fetch, store its result on success, and leave the slot
untouched on failure while propagating the error. -/
def get_base_currency_info (fetched_currencies : Option CurrencyInfo) (now : Nat)
    (fetch : Except FetchError CurrencyInfo) : FetchOutcome :=
  match fetched_currencies with
  | some info =>
      if now - info.timestamp ≤ MAX_CACHE_TIME_SECS then
        { state := some info, fetchInvoked := false, result := .ok info }
      else
        match fetch with
        | .ok new_info =>
            { state := some new_info, fetchInvoked := true, result := .ok new_info }
        | .error e =>
            { state := some info, fetchInvoked := true, result := .error e }
  | none =>
      match fetch with
      | .ok new_info =>
          { state := some new_info, fetchInvoked := true, result := .ok new_info }
      | .error e =>
          { state := none, fetchInvoked := true, result := .error e }

/-- `CurrencyConverter::get_currency_rate`: the literal string `"USD"`
resolves to `ONE_USD_RATE` without touching the mapping; any other code
is looked up verbatim. -/
def get_currency_rate (currency_info : CurrencyInfo) (currency_code : String) : Option ℚ :=
  if currency_code = "USD" then ONE_USD_RATE
  else currency_info.currency_rates.lookup currency_code

/-- Outcome of one `convert_currency` call. -/
structure ConvertOutcome where
  state : Option CurrencyInfo
  fetchInvoked : Bool
  result : Except ConvError CurrencyConvertResult
deriving Repr

/-- `CurrencyConverter::convert_currency`: obtain the snapshot (through
the cache), resolve both rates, error on a missing rate, otherwise
`conversion_rate = (1 / source_rate) * target_rate`. -/
def convert_currency (st : Option CurrencyInfo) (now : Nat)
    (fetch : Except FetchError CurrencyInfo)
    (base_currency target_currency : String) : ConvertOutcome :=
  let out := get_base_currency_info st now fetch
  match out.result with
  | .error e =>
      { state := out.state, fetchInvoked := out.fetchInvoked,
        result := .error (.fetchFailed e) }
  | .ok current_info =>
      let source_current_rate := get_currency_rate current_info base_currency
      let target_current_rate := get_currency_rate current_info target_currency
      match source_current_rate, target_current_rate with
      | some s, some t =>
          { state := out.state, fetchInvoked := out.fetchInvoked,
            result := .ok { base_currency := base_currency,
                            target_currency := target_currency,
                            conversion_rate := (1 / s) * t } }
      | _, _ =>
          { state := out.state, fetchInvoked := out.fetchInvoked,
            result := .error .invalidCurrency }

/-- Outcome of one `convert_currencies` call. -/
structure ConvertManyOutcome where
  state : Option CurrencyInfo
  result : Except ConvError (List CurrencyConvertResult)
deriving Repr

/-- `CurrencyConverter::convert_currencies`: the `for` loop over the
targets, `?`-propagating the first failing conversion and pushing each
success. -/
def convert_currencies (st : Option CurrencyInfo) (now : Nat)
    (fetch : Except FetchError CurrencyInfo) (base_currency : String) :
    List String → ConvertManyOutcome
  | [] => { state := st, result := .ok [] }
  | target :: rest =>
      let one := convert_currency st now fetch base_currency target
      match one.result with
      | .error e => { state := one.state, result := .error e }
      | .ok r =>
          let more := convert_currencies one.state now fetch base_currency rest
          match more.result with
          | .error e => { state := more.state, result := .error e }
          | .ok rs => { state := more.state, result := .ok (r :: rs) }

/-! ### The `main.rs` status pipeline -/

/-- Modelled from the spec: the `CurrencyApiResponse` consumed by
`main.rs` (accessed there as `response.result.rates` and
`response.updated`) is declared in a revision of `currency_api.rs` that
is not among the sources; its shape follows §6 "JSON response shape":
a merged rates mapping nested under `result`, and an upstream-reported
update timestamp string. -/
structure MainApiResult where
  rates : RatesMap
deriving Repr

/-- Modelled from the spec: see `MainApiResult`. -/
structure MainApiResponse where
  result : MainApiResult
  updated : String
deriving Repr

/-- Rust `str::to_uppercase`, at the ASCII subset the currency codes use. -/
def to_uppercase (s : String) : String :=
  String.mk (s.toList.map Char.toUpper)

/-- Rust `str::trim`: strip whitespace from both ends. -/
def trim_ws (s : String) : String :=
  String.mk (((s.toList.dropWhile Char.isWhitespace).reverse.dropWhile
    Char.isWhitespace).reverse)

/-- Rust `str::split(',')`. -/
def split_commas (s : String) : List String :=
  (s.toList.splitOn ',').map (fun cs => String.mk cs)

/-- `get_currency_info` of `main.rs`: reject codes absent from the
supported-currencies table before touching the cache; serve a cached
response if present; otherwise fetch, caching the response on success and
returning `None` on failure. The triple records the cache afterwards,
whether the upstream fetch was invoked, and the returned value. -/
def get_currency_info (supported_currencies : List (String × String))
    (currency_info_cache : List (String × MainApiResponse))
    (fetch : Except FetchError MainApiResponse) (currency : String) :
    List (String × MainApiResponse) × Bool × Option MainApiResponse :=
  let actual_base_currency := to_uppercase currency
  if (supported_currencies.lookup actual_base_currency).isNone then
    (currency_info_cache, false, none)
  else
    match currency_info_cache.lookup actual_base_currency with
    | some cached => (currency_info_cache, false, some cached)
    | none =>
        match fetch with
        | .ok api_response =>
            ((actual_base_currency, api_response) :: currency_info_cache,
              true, some api_response)
        | .error _ => (currency_info_cache, true, none)

/-- The target-extraction pipeline of `convert_currency_info_to` in
`main.rs`: split the request on commas, keep at most the first 3 pieces,
trim, pair each piece with the rate looked up under its uppercased form,
drop pieces without a rate (the `filter is_some` / `map unwrap` stages,
fused into one `filterMap`), and keep those whose uppercased form has a
display name, paired as `(name, rate)`. -/
def extracted_currency_targets (supported_currencies : List (String × String))
    (response : MainApiResponse) (target_currencies : String) :
    List (String × ℚ) :=
  (((((split_commas target_currencies).take 3).map trim_ws).map
      (fun ct => (ct, response.result.rates.lookup (to_uppercase ct)))).filterMap
      (fun p => p.2.map (fun r => (p.1, r)))).filterMap
    (fun p => (supported_currencies.lookup (to_uppercase p.1)).map
      (fun currency_name => (currency_name, p.2)))

/-- The response body built by `convert_currency_info_to` in `main.rs`
once `get_currency_info` has produced a response: the fallback line when
no requested target survives extraction, else the formatted status line.
The `unwrap` of the requested currency's display name is modelled by a
default that the caller's supported-currencies check makes unreachable;
the f64 `Display` rendering of a rate is modelled as `num/den`. -/
def convert_currency_info_to (response : MainApiResponse) (currency : String)
    (supported_currencies : List (String × String))
    (target_currencies : String) : String :=
  let requested_currency :=
    (supported_currencies.lookup (to_uppercase currency)).getD (to_uppercase currency)
  let targets := extracted_currency_targets supported_currencies response target_currencies
  if targets.isEmpty then
    "No supported currency given to convert to"
  else
    let formatted_targets :=
      String.intercalate ", "
        (targets.map (fun p => toString p.2.num ++ "/" ++ toString p.2.den ++ " " ++ p.1))
    "Status as of " ++ response.updated ++ " (UTC): 1 " ++ requested_currency ++
      " is equal to " ++ formatted_targets

/-! ### Helper lemmas -/

theorem lookup_append (l₁ l₂ : RatesMap) (k : String) :
    (l₁ ++ l₂).lookup k = (l₁.lookup k).or (l₂.lookup k) := by
  induction l₁ with
  | nil => cases h : l₂.lookup k <;> simp [List.lookup, Option.or, h]
  | cons hd tl ih =>
    rcases hd with ⟨a, b⟩
    cases h : k == a <;> simp [List.lookup, h, ih, Option.or]

theorem mergeRates_lookup (xe ff : RatesMap) (k : String) :
    (mergeRates ff xe).lookup k = (ff.lookup k).or (xe.lookup k) := by
  induction xe generalizing ff with
  | nil => cases h : ff.lookup k <;> simp [mergeRates, List.lookup, Option.or, h]
  | cons hd tl ih =>
    rcases hd with ⟨c, r⟩
    have step : mergeRates ff ((c, r) :: tl)
        = mergeRates (if (ff.lookup c).isSome = true then ff else ff ++ [(c, r)]) tl := rfl
    rw [step]
    by_cases hc : (ff.lookup c).isSome = true
    · rw [if_pos hc, ih]
      cases hk : k == c
      · simp [List.lookup, hk]
      · have hkc : k = c := by simpa using hk
        subst hkc
        rcases Option.isSome_iff_exists.mp hc with ⟨v, hv⟩
        simp [List.lookup, hv, Option.or]
    · rw [if_neg hc, ih, lookup_append]
      have hnone : ff.lookup c = none := by
        cases h : ff.lookup c
        · rfl
        · exact absurd (by simp [h]) hc
      cases hk : k == c
      · cases hf : List.lookup k ff <;> simp [List.lookup, hk, hf, Option.or]
      · have hkc : k = c := by simpa using hk
        subst hkc
        simp [List.lookup, hnone, Option.or]

/-! ### C1 -/

/-- **C1** (corrected): `fetch_currencies` fails whenever the primary
(FastForex) fetch fails, regardless of the secondary outcome; but it also
fails whenever the secondary (XE) fetch fails, since that result too is
propagated with `?`; a snapshot is produced exactly when both providers
succeed. -/
theorem fetch_currencies_requires_both :
    (∀ (now : Nat) (e : FetchError) (xe : Except FetchError CurrencyApiResponse),
      fetch_currencies now (.error e) xe = .error e)
    ∧ (∀ (now : Nat) (ff : CurrencyApiResponse) (e : FetchError),
      fetch_currencies now (.ok ff) (.error e) = .error e)
    ∧ (∀ (now : Nat) (ff xe : CurrencyApiResponse),
      ∃ snap, fetch_currencies now (.ok ff) (.ok xe) = .ok snap) :=
  ⟨fun _ _ _ => rfl, fun _ _ _ => rfl, fun _ _ _ => ⟨_, rfl⟩⟩

/-- **C1** counterexample: at this input the primary provider succeeds and
the secondary fails, yet `fetch_currencies` produces no snapshot — it
returns the secondary's error — refuting "a failure of the secondary
provider (XE) does not cause overall failure". -/
theorem fetch_currencies_secondary_failure_cex :
    fetch_currencies 0 (.ok ⟨[("EUR", 9 / 10)]⟩) (.error .xeUnavailable)
      = .error .xeUnavailable
    ∧ ¬ ∃ snap, fetch_currencies 0 (.ok ⟨[("EUR", 9 / 10)]⟩)
        (.error .xeUnavailable) = .ok snap := by
  refine ⟨rfl, ?_⟩
  rintro ⟨snap, h⟩
  exact Except.noConfusion h

/-! ### C2 -/

/-- **C2**: when both providers succeed, `fetch_currencies` returns a
snapshot whose rate for each code is the FastForex rate whenever FastForex
supplies that code (even when XE also supplies it), and the XE rate when
only XE supplies it; the merged key set is exactly the union of the two
key sets. -/
theorem fetch_currencies_merge_first_wins (now : Nat)
    (ff xe : CurrencyApiResponse) :
    ∃ snap, fetch_currencies now (.ok ff) (.ok xe) = .ok snap
      ∧ (∀ code, snap.currency_rates.lookup code
          = (ff.currency_rates.lookup code).or (xe.currency_rates.lookup code))
      ∧ (∀ code, (snap.currency_rates.lookup code).isSome = true
          ↔ ((ff.currency_rates.lookup code).isSome = true
            ∨ (xe.currency_rates.lookup code).isSome = true)) := by
  refine ⟨_, rfl, fun code => mergeRates_lookup _ _ _, fun code => ?_⟩
  show ((mergeRates ff.currency_rates xe.currency_rates).lookup code).isSome = true ↔ _
  rw [mergeRates_lookup]
  cases h₁ : ff.currency_rates.lookup code
    <;> cases h₂ : xe.currency_rates.lookup code
    <;> simp [Option.or]

/-! ### C3 -/

/-- **C3**: `MAX_CACHE_TIME_SECS` is the fixed 5-minute TTL of 300
seconds; whenever the cache slot holds a snapshot aged at most the TTL,
`get_base_currency_info` returns exactly that snapshot without invoking
the upstream fetch and without touching the slot; and with a snapshot in
the slot, the upstream fetch is invoked exactly when the age exceeds the
TTL. -/
theorem get_base_currency_info_fresh_cache_hit :
    MAX_CACHE_TIME_SECS = 300
    ∧ (∀ (info : CurrencyInfo) (now : Nat) (fetch : Except FetchError CurrencyInfo),
        now - info.timestamp ≤ MAX_CACHE_TIME_SECS →
          get_base_currency_info (some info) now fetch
            = { state := some info, fetchInvoked := false, result := .ok info })
    ∧ (∀ (info : CurrencyInfo) (now : Nat) (fetch : Except FetchError CurrencyInfo),
        (get_base_currency_info (some info) now fetch).fetchInvoked = true
          ↔ MAX_CACHE_TIME_SECS < now - info.timestamp) := by
  refine ⟨rfl, fun info now fetch h => by simp [get_base_currency_info, h],
    fun info now fetch => ?_⟩
  rcases le_or_lt (now - info.timestamp) MAX_CACHE_TIME_SECS with h | h
  · exact iff_of_false (by simp [get_base_currency_info, h]) (not_lt.mpr h)
  · refine iff_of_true ?_ h
    have h' : ¬ now - info.timestamp ≤ MAX_CACHE_TIME_SECS := not_le.mpr h
    cases fetch <;> simp [get_base_currency_info, h']

/-- **C3** witness: at age 100 s the cached snapshot is served untouched
with no fetch; at age 1000 s the fetch is invoked. -/
theorem get_base_currency_info_fresh_cache_hit_witness :
    get_base_currency_info (some ⟨0, [("EUR", 2)]⟩) 100 (.error .fastForexUnavailable)
      = { state := some ⟨0, [("EUR", 2)]⟩, fetchInvoked := false,
          result := .ok ⟨0, [("EUR", 2)]⟩ }
    ∧ (get_base_currency_info (some ⟨0, [("EUR", 2)]⟩) 1000
        (.error .fastForexUnavailable)).fetchInvoked = true :=
  ⟨get_base_currency_info_fresh_cache_hit.2.1 ⟨0, [("EUR", 2)]⟩ 100 _ (by decide),
    (get_base_currency_info_fresh_cache_hit.2.2 ⟨0, [("EUR", 2)]⟩ 1000 _).mpr (by decide)⟩

/-! ### C4 -/

/-- **C4**: when the upstream fetch fails, `get_base_currency_info` leaves
the cache slot exactly as it was before the call (the stale or absent
snapshot is neither overwritten nor deleted), and whenever the fetch was
actually attempted the fetch error itself is propagated to the caller. -/
theorem get_base_currency_info_failure_preserves_cache :
    (∀ (st : Option CurrencyInfo) (now : Nat) (e : FetchError),
      (get_base_currency_info st now (.error e)).state = st)
    ∧ (∀ (st : Option CurrencyInfo) (now : Nat) (e : FetchError),
      (get_base_currency_info st now (.error e)).fetchInvoked = true →
        (get_base_currency_info st now (.error e)).result = .error e) := by
  constructor
  · rintro (_ | info) now e
    · rfl
    · by_cases h : now - info.timestamp ≤ MAX_CACHE_TIME_SECS <;>
        simp [get_base_currency_info, h]
  · rintro (_ | info) now e
    · intro _; rfl
    · by_cases h : now - info.timestamp ≤ MAX_CACHE_TIME_SECS <;>
        simp [get_base_currency_info, h]

/-- **C4** witness: a failing refresh of a 1000-second-old snapshot leaves
the old snapshot in the slot and surfaces the fetch error; the same holds
for an empty slot. -/
theorem get_base_currency_info_failure_preserves_cache_witness :
    (get_base_currency_info (some ⟨0, [("EUR", 2)]⟩) 1000
        (.error .xeUnavailable)).state = some ⟨0, [("EUR", 2)]⟩
    ∧ (get_base_currency_info none 0 (.error .xeUnavailable)).result
        = .error .xeUnavailable :=
  ⟨get_base_currency_info_failure_preserves_cache.1 (some ⟨0, [("EUR", 2)]⟩) 1000 .xeUnavailable,
    get_base_currency_info_failure_preserves_cache.2 none 0 .xeUnavailable rfl⟩

/-! ### C8 -/

/-- **C8**: for every snapshot whatsoever — in particular one whose rates
mapping contains a `"USD"` entry with a different value — the code
`"USD"` resolves through `get_currency_rate` to `ONE_USD_RATE`, which is
the rate `1`; the rates mapping is never consulted, as the resolved value
does not depend on the snapshot. -/
theorem get_currency_rate_usd_anchor :
    (∀ info : CurrencyInfo, get_currency_rate info "USD" = some 1)
    ∧ (∀ info info' : CurrencyInfo,
        get_currency_rate info "USD" = get_currency_rate info' "USD")
    ∧ ONE_USD_RATE = some 1 :=
  ⟨fun _ => rfl, fun _ _ => rfl, rfl⟩

/-! ### C5 -/

theorem get_currency_rate_isSome (info : CurrencyInfo) (c : String) :
    (get_currency_rate info c).isSome = true
      ↔ (c = "USD" ∨ (info.currency_rates.lookup c).isSome = true) := by
  by_cases h : c = "USD"
  · subst h
    simp [get_currency_rate, ONE_USD_RATE]
  · simp [get_currency_rate, h]

theorem convert_currency_success_iff (info : CurrencyInfo) (now : Nat)
    (fetch : Except FetchError CurrencyInfo) (base target : String)
    (hfresh : now - info.timestamp ≤ MAX_CACHE_TIME_SECS) :
    (∃ r, (convert_currency (some info) now fetch base target).result = .ok r)
      ↔ ((get_currency_rate info base).isSome = true
        ∧ (get_currency_rate info target).isSome = true) := by
  unfold convert_currency
  simp only [get_base_currency_info, hfresh, if_pos]
  cases hs : get_currency_rate info base <;>
    cases ht : get_currency_rate info target <;> simp [hs, ht]

/-- **C5** counterexample: with a fresh snapshot supplying only the key
`"EUR"`, conversion from the uppercase spelling `"EUR"` succeeds while
conversion from the lowercase spelling `"eur"` fails — refuting
"conversion for a lowercase spelling of a code succeeds exactly when
conversion for its uppercase form succeeds". -/
theorem convert_currency_case_sensitive_cex :
    (∃ r, (convert_currency (some ⟨0, [("EUR", 2)]⟩) 0
        (.error .fastForexUnavailable) "EUR" "USD").result = .ok r)
    ∧ ¬ ∃ r, (convert_currency (some ⟨0, [("EUR", 2)]⟩) 0
        (.error .fastForexUnavailable) "eur" "USD").result = .ok r := by
  refine ⟨⟨_, rfl⟩, ?_⟩
  rintro ⟨r, h⟩
  exact Except.noConfusion h

/-- **C5** (corrected): `convert_currency` canonicalizes nothing — both
codes are looked up exactly as spelled. With a fresh cached snapshot,
conversion succeeds precisely when each of the two codes is either the
exact string `"USD"` or literally a key of the snapshot's rates mapping;
a lowercase or mixed-case spelling therefore succeeds only if the mapping
itself contains that exact spelling. -/
theorem convert_currency_no_canonicalization (info : CurrencyInfo) (now : Nat)
    (fetch : Except FetchError CurrencyInfo) (base target : String)
    (hfresh : now - info.timestamp ≤ MAX_CACHE_TIME_SECS) :
    (∃ r, (convert_currency (some info) now fetch base target).result = .ok r)
      ↔ ((base = "USD" ∨ (info.currency_rates.lookup base).isSome = true)
        ∧ (target = "USD" ∨ (info.currency_rates.lookup target).isSome = true)) := by
  rw [convert_currency_success_iff info now fetch base target hfresh,
    get_currency_rate_isSome, get_currency_rate_isSome]

/-- **C5** witness: the characterization applied to the snapshot
`{EUR ↦ 2}` at base `"eur"`, target `"EUR"`: the conversion fails because
`"eur"` is neither `"USD"` nor a literal key. -/
theorem convert_currency_no_canonicalization_witness :
    (∃ r, (convert_currency (some ⟨0, [("EUR", 2)]⟩) 0
        (.error .xeUnavailable) "eur" "EUR").result = .ok r)
      ↔ (("eur" = "USD"
            ∨ ((⟨0, [("EUR", 2)]⟩ : CurrencyInfo).currency_rates.lookup "eur").isSome = true)
        ∧ ("EUR" = "USD"
            ∨ ((⟨0, [("EUR", 2)]⟩ : CurrencyInfo).currency_rates.lookup "EUR").isSome = true)) :=
  convert_currency_no_canonicalization ⟨0, [("EUR", 2)]⟩ 0 (.error .xeUnavailable)
    "eur" "EUR" (by decide)

/-! ### C6 -/

/-- **C6**: with a fresh cached snapshot, a conversion whose base or
target code is neither the anchor string `"USD"` nor a key of the rates
mapping fails with the invalid-currency error — a constructor distinct
from every propagated fetch failure — while invoking no upstream fetch
and leaving the cache slot unchanged; and on the `main.rs` handler path,
a code absent from the supported-currencies table is rejected by
`get_currency_info` before the cache is consulted or any fetch happens. -/
theorem convert_invalid_currency_error :
    (∀ (info : CurrencyInfo) (now : Nat) (fetch : Except FetchError CurrencyInfo)
        (base target : String),
      now - info.timestamp ≤ MAX_CACHE_TIME_SECS →
      ((base ≠ "USD" ∧ info.currency_rates.lookup base = none)
        ∨ (target ≠ "USD" ∧ info.currency_rates.lookup target = none)) →
      convert_currency (some info) now fetch base target
        = { state := some info, fetchInvoked := false,
            result := .error .invalidCurrency })
    ∧ (∀ e : FetchError, ConvError.invalidCurrency ≠ ConvError.fetchFailed e)
    ∧ (∀ (supported : List (String × String))
        (cache : List (String × MainApiResponse))
        (fetch : Except FetchError MainApiResponse) (currency : String),
      supported.lookup (to_uppercase currency) = none →
      get_currency_info supported cache fetch currency = (cache, false, none)) := by
  refine ⟨fun info now fetch base target hfresh habsent => ?_,
    fun e h => ConvError.noConfusion h,
    fun supported cache fetch currency h => by simp [get_currency_info, h]⟩
  unfold convert_currency
  simp only [get_base_currency_info, hfresh, if_pos]
  rcases habsent with ⟨hne, hnone⟩ | ⟨hne, hnone⟩
  · simp [get_currency_rate, hne, hnone]
  · cases hs : get_currency_rate info base <;>
      simp [hs, get_currency_rate, hne, hnone]

/-- **C6** witness: `convert("ZZZ", "USD")` against the fresh snapshot
`{EUR ↦ 2}` yields the invalid-currency error with no fetch and an
unchanged slot; the error differs from a propagated XE failure; and the
`main.rs` handler rejects the unsupported code `"zzz"` without touching
its cache. -/
theorem convert_invalid_currency_error_witness :
    convert_currency (some ⟨0, [("EUR", 2)]⟩) 0 (.error .xeUnavailable) "ZZZ" "USD"
      = { state := some ⟨0, [("EUR", 2)]⟩, fetchInvoked := false,
          result := .error .invalidCurrency }
    ∧ ConvError.invalidCurrency ≠ ConvError.fetchFailed .xeUnavailable
    ∧ get_currency_info [("EUR", "Euro")] [] (.error .xeUnavailable) "zzz"
      = ([], false, none) :=
  ⟨convert_invalid_currency_error.1 ⟨0, [("EUR", 2)]⟩ 0 (.error .xeUnavailable)
      "ZZZ" "USD" (by decide) (Or.inl ⟨by decide, rfl⟩),
    convert_invalid_currency_error.2.1 .xeUnavailable,
    convert_invalid_currency_error.2.2 [("EUR", "Euro")] [] (.error .xeUnavailable)
      "zzz" (by decide)⟩

/-! ### C9 -/

/-- Re-running `get_base_currency_info` from the slot a first run left
behind changes nothing: the slot stays put and the returned value is the
same (the fetch argument models a deterministic environment during one
request). -/
theorem get_base_currency_info_idem (st : Option CurrencyInfo) (now : Nat)
    (fetch : Except FetchError CurrencyInfo) :
    (get_base_currency_info (get_base_currency_info st now fetch).state now fetch).state
        = (get_base_currency_info st now fetch).state
    ∧ (get_base_currency_info (get_base_currency_info st now fetch).state now fetch).result
        = (get_base_currency_info st now fetch).result := by
  rcases st with _ | info
  · cases fetch with
    | error e => exact ⟨rfl, rfl⟩
    | ok new_info =>
        by_cases h : now - new_info.timestamp ≤ MAX_CACHE_TIME_SECS <;>
          simp [get_base_currency_info, h]
  · by_cases h : now - info.timestamp ≤ MAX_CACHE_TIME_SECS
    · simp [get_base_currency_info, h]
    · cases fetch with
      | error e => simp [get_base_currency_info, h]
      | ok new_info =>
          by_cases h2 : now - new_info.timestamp ≤ MAX_CACHE_TIME_SECS <;>
            simp [get_base_currency_info, h, h2]

/-- The slot after `convert_currency` is the slot after its cache access;
it does not depend on the two codes. -/
theorem convert_currency_state (st : Option CurrencyInfo) (now : Nat)
    (fetch : Except FetchError CurrencyInfo) (base target : String) :
    (convert_currency st now fetch base target).state
      = (get_base_currency_info st now fetch).state := by
  unfold convert_currency
  cases h : (get_base_currency_info st now fetch).result with
  | error e => simp [h]
  | ok info =>
      cases hs : get_currency_rate info base <;>
        cases ht : get_currency_rate info target <;> simp [h, hs, ht]

/-- Two starting slots on which the cache access returns the same value
give `convert_currency` results that agree. -/
theorem convert_currency_result_congr (st₁ st₂ : Option CurrencyInfo) (now : Nat)
    (fetch : Except FetchError CurrencyInfo) (base target : String)
    (h : (get_base_currency_info st₁ now fetch).result
      = (get_base_currency_info st₂ now fetch).result) :
    (convert_currency st₁ now fetch base target).result
      = (convert_currency st₂ now fetch base target).result := by
  cases h₂ : (get_base_currency_info st₂ now fetch).result with
  | error e =>
      have h₁ : (get_base_currency_info st₁ now fetch).result = .error e := h.trans h₂
      unfold convert_currency
      simp [h₁, h₂]
  | ok info =>
      have h₁ : (get_base_currency_info st₁ now fetch).result = .ok info := h.trans h₂
      unfold convert_currency
      cases hs : get_currency_rate info base <;>
        cases ht : get_currency_rate info target <;> simp [h₁, h₂, hs, ht]

theorem convert_currencies_all_ok (now : Nat)
    (fetch : Except FetchError CurrencyInfo) (base : String) :
    ∀ (targets : List String) (st : Option CurrencyInfo),
      (∀ t ∈ targets, ∃ r, (convert_currency st now fetch base t).result = .ok r) →
      ∃ rs, (convert_currencies st now fetch base targets).result = .ok rs
        ∧ rs.length = targets.length := by
  intro targets
  induction targets with
  | nil => exact fun st _ => ⟨[], rfl, rfl⟩
  | cons t rest ih =>
      intro st hall
      rcases hall t (List.mem_cons_self t rest) with ⟨r, hr⟩
      have hstate := convert_currency_state st now fetch base t
      have htail : ∀ u ∈ rest,
          ∃ r', (convert_currency (convert_currency st now fetch base t).state
            now fetch base u).result = .ok r' := by
        intro u hu
        rcases hall u (List.mem_cons_of_mem t hu) with ⟨r', hr'⟩
        refine ⟨r', ?_⟩
        rw [hstate, convert_currency_result_congr _ st now fetch base u
          (get_base_currency_info_idem st now fetch).2]
        exact hr'
      rcases ih (convert_currency st now fetch base t).state htail with ⟨rs, hrs, hlen⟩
      refine ⟨r :: rs, ?_, by simpa using hlen⟩
      show (convert_currencies st now fetch base (t :: rest)).result = .ok (r :: rs)
      simp [convert_currencies, hr, hrs]

theorem convert_currencies_first_error (now : Nat)
    (fetch : Except FetchError CurrencyInfo) (base : String) (t : String)
    (post : List String) (e : ConvError) :
    ∀ (pre : List String) (st : Option CurrencyInfo),
      (∀ u ∈ pre, ∃ r, (convert_currency st now fetch base u).result = .ok r) →
      (convert_currency st now fetch base t).result = .error e →
      (convert_currencies st now fetch base (pre ++ t :: post)).result = .error e := by
  intro pre
  induction pre with
  | nil =>
      intro st _ herr
      show (convert_currencies st now fetch base (t :: post)).result = .error e
      simp [convert_currencies, herr]
  | cons u pre' ih =>
      intro st hall herr
      rcases hall u (List.mem_cons_self u pre') with ⟨r, hr⟩
      have hstate := convert_currency_state st now fetch base u
      have hcongr : ∀ v, (convert_currency (convert_currency st now fetch base u).state
          now fetch base v).result = (convert_currency st now fetch base v).result := by
        intro v
        rw [hstate]
        exact convert_currency_result_congr _ st now fetch base v
          (get_base_currency_info_idem st now fetch).2
      have htail : ∀ v ∈ pre',
          ∃ r', (convert_currency (convert_currency st now fetch base u).state
            now fetch base v).result = .ok r' := by
        intro v hv
        rcases hall v (List.mem_cons_of_mem u hv) with ⟨r', hr'⟩
        exact ⟨r', by rw [hcongr v]; exact hr'⟩
      have htailerr : (convert_currency (convert_currency st now fetch base u).state
          now fetch base t).result = .error e := by
        rw [hcongr t]; exact herr
      have htl := ih (convert_currency st now fetch base u).state htail htailerr
      show (convert_currencies st now fetch base (u :: (pre' ++ t :: post))).result = .error e
      simp [convert_currencies, hr, htl]

/-- **C9**: `convert_currencies` applies `convert_currency` to the targets
in sequence order: when every target converts, the result is a list with
exactly one `CurrencyConvertResult` per target; when some target fails,
the error of the first failing target is propagated as the overall result
and no partial list is returned. -/
theorem convert_currencies_short_circuit :
    (∀ (st : Option CurrencyInfo) (now : Nat)
        (fetch : Except FetchError CurrencyInfo) (base : String)
        (targets : List String),
      (∀ t ∈ targets, ∃ r, (convert_currency st now fetch base t).result = .ok r) →
      ∃ rs, (convert_currencies st now fetch base targets).result = .ok rs
        ∧ rs.length = targets.length)
    ∧ (∀ (st : Option CurrencyInfo) (now : Nat)
        (fetch : Except FetchError CurrencyInfo) (base : String)
        (pre : List String) (t : String) (post : List String) (e : ConvError),
      (∀ u ∈ pre, ∃ r, (convert_currency st now fetch base u).result = .ok r) →
      (convert_currency st now fetch base t).result = .error e →
      (convert_currencies st now fetch base (pre ++ t :: post)).result = .error e) :=
  ⟨fun st now fetch base targets hall =>
      convert_currencies_all_ok now fetch base targets st hall,
    fun st now fetch base pre t post e hall herr =>
      convert_currencies_first_error now fetch base t post e pre st hall herr⟩

/-- **C9** witness: with the fresh snapshot `{EUR ↦ 2, GBP ↦ 4}` and base
`"USD"`, converting to `["EUR", "GBP"]` yields two results, and
converting to `["EUR", "ZZZ", "GBP"]` short-circuits on the unknown
second target with the invalid-currency error. -/
theorem convert_currencies_short_circuit_witness :
    (∃ rs, (convert_currencies (some ⟨0, [("EUR", 2), ("GBP", 4)]⟩) 0
        (.error .xeUnavailable) "USD" ["EUR", "GBP"]).result = .ok rs
      ∧ rs.length = (["EUR", "GBP"] : List String).length)
    ∧ (convert_currencies (some ⟨0, [("EUR", 2), ("GBP", 4)]⟩) 0
        (.error .xeUnavailable) "USD" (["EUR"] ++ "ZZZ" :: ["GBP"])).result
      = .error .invalidCurrency := by
  constructor
  · refine convert_currencies_short_circuit.1 _ 0 (.error .xeUnavailable) "USD"
      ["EUR", "GBP"] ?_
    intro t ht
    simp only [List.mem_cons, List.not_mem_nil, or_false] at ht
    rcases ht with rfl | rfl
    · exact ⟨_, rfl⟩
    · exact ⟨_, rfl⟩
  · refine convert_currencies_short_circuit.2 _ 0 (.error .xeUnavailable) "USD"
      ["EUR"] "ZZZ" ["GBP"] .invalidCurrency ?_ rfl
    intro u hu
    simp only [List.mem_cons, List.not_mem_nil, or_false] at hu
    subst hu
    exact ⟨_, rfl⟩

/-! ### C10 -/

/-- **C10**: the plain-text status response depends only on the first 3
comma-separated pieces of the target-currencies request string — two
requests agreeing on those produce identical responses, so any targets
beyond the third are silently ignored and never appear in the formatted
response. -/
theorem convert_currency_info_to_take3 (response : MainApiResponse)
    (currency : String) (supported_currencies : List (String × String))
    (s t : String)
    (h : (split_commas s).take 3 = (split_commas t).take 3) :
    convert_currency_info_to response currency supported_currencies s
      = convert_currency_info_to response currency supported_currencies t := by
  unfold convert_currency_info_to extracted_currency_targets
  rw [h]

/-- **C10** witness: a request naming five targets formats exactly like
the request naming only its first three, so the fourth and fifth targets
cannot appear in the response. -/
theorem convert_currency_info_to_take3_witness :
    convert_currency_info_to ⟨⟨[("EUR", 2), ("GBP", 4), ("JPY", 150), ("CHF", 1), ("CAD", 2)]⟩, "2024-01-01"⟩
        "USD" [("USD", "US Dollar"), ("EUR", "Euro"), ("GBP", "Pound"), ("JPY", "Yen"), ("CHF", "Franc"), ("CAD", "CA Dollar")]
        "EUR,GBP,JPY,CHF,CAD"
      = convert_currency_info_to ⟨⟨[("EUR", 2), ("GBP", 4), ("JPY", 150), ("CHF", 1), ("CAD", 2)]⟩, "2024-01-01"⟩
        "USD" [("USD", "US Dollar"), ("EUR", "Euro"), ("GBP", "Pound"), ("JPY", "Yen"), ("CHF", "Franc"), ("CAD", "CA Dollar")]
        "EUR,GBP,JPY" :=
  convert_currency_info_to_take3 _ "USD" _ "EUR,GBP,JPY,CHF,CAD" "EUR,GBP,JPY" (by decide)
